import Mathlib

/-!
Verification of the `users` repository's user-management router
(`src/users_router.rs`) against its natural-language specification.

The router itself (handler bodies, route table, CORS endpoint list, auth
endpoint list) is translated directly from `src/users_router.rs`.  The
collaborators that live in other files of the repository that are not
provided (`auth_middleware.rs`, `users_db.rs`, `errors.rs`) and the CORS
middleware are modelled from the specification; each such definition is
marked `Modelled from the spec:` in its doc comment.
-/

/-- HTTP methods used by the router. -/
inductive Method
  | get | post | put | delete | options | head | patch
deriving DecidableEq, Repr

/-- A request path, split into segments (`/v1/users/7` is `["v1","users","7"]`). -/
abbrev ReqPath := List String

/-- One segment of an endpoint pattern: a literal, or a `:name` wildcard
(the route table of `users_router.rs` writes wildcards as `:id`). -/
inductive Seg
  | lit (s : String)
  | wc (name : String)
deriving DecidableEq, Repr

/-- From `users_router.rs`: `pub static API_VERSION: &'static str = "v1";`. -/
def API_VERSION : String := "v1"

/-- Modelled from the spec (§4.1 PathPatternMatcher, not under src/): a pattern
segment matches a path segment if it is a wildcard or the equal literal. -/
def segMatches : Seg → String → Bool
  | Seg.wc _, _ => true
  | Seg.lit s, t => s == t

/-- Modelled from the spec (§4.1): a pattern matches a path iff the segment
counts are equal and every position matches (true conjunction). -/
def segsMatch (pat : List Seg) (p : ReqPath) : Bool :=
  pat.length == p.length && (List.zip pat p).all (fun st => segMatches st.1 st.2)

/-- An endpoint entry: a list of methods and a segment pattern
(the shape of both the CORS list and the auth-gate list in `init`). -/
structure Endpoint where
  methods : List Method
  pattern : List Seg
deriving DecidableEq, Repr

/-- Modelled from the spec (§4.1, §4.3): an auth-gate endpoint list matches a
request iff some entry lists the request method and its pattern matches the
path. -/
def authMatch (eps : List Endpoint) (m : Method) (p : ReqPath) : Bool :=
  eps.any fun ep => ep.methods.contains m && segsMatch ep.pattern p

/-- Modelled from the spec (§4.1, §4.4): CORS matching is the same, except an
OPTIONS preflight request is treated as satisfying the declared method. -/
def corsMatch (eps : List Endpoint) (m : Method) (p : ReqPath) : Bool :=
  eps.any fun ep =>
    (m == Method.options || ep.methods.contains m) && segsMatch ep.pattern p

/-- Modelled from the spec (§3, and the session-claims uses in
`auth_middleware.rs`, not under src/): the claims carried by a session token;
the router only ever puts a user's numeric id and name into them. -/
structure SessionClaims where
  id : Nat
  name : String
deriving DecidableEq, Repr

/-- Modelled from the spec (§3 Session Token): an opaque signed token; the
only observable the router relies on is the claims it encodes. -/
structure Token where
  claims : SessionClaims
deriving DecidableEq, Repr

/-- A user record as produced by `users_db.rs` (not under src/; fields taken
from the spec §3 and the builder calls in `users_router.rs`). -/
structure User where
  id : Nat
  name : String
  email : String
  password : String
  isAdmin : Bool
deriving DecidableEq, Repr

/-- Modelled from the spec (§4.2 SessionTokenCodec / `SessionToken::from_user`
in `auth_middleware.rs`, not under src/): issuing a token for a user encodes
that user's numeric id and name in the claims; issuance is deterministic and
does not fail for well-formed claims. -/
def SessionToken.from_user (u : User) : Token :=
  { claims := { id := u.id, name := u.name } }

/-- An HTTP response as the handlers build them: a status code, the error body
`{errno, message}` produced by `EndpointError::with`, or a
`{session_token}` body produced by `LoginResponse`. -/
structure Response where
  status : Nat
  errno : Option Nat
  message : Option String
  sessionToken : Option Token
deriving DecidableEq, Repr

/-- `EndpointError::with(status, errno, message)` from `errors.rs` (not under
src/): builds an error response carrying the errno and optional message
(shape confirmed by the `ErrorBody` assertions in the router's tests). -/
def EndpointError.with (status : Nat) (errno : Nat) (message : Option String) :
    Response :=
  { status := status, errno := some errno, message := message,
    sessionToken := none }

/-- `LoginResponse::with_user` from `users_router.rs`: issue a session token
for the user and answer `201 Created` with a `{session_token}` body.  (The
token/JSON encoding failure arms return 500/errno 501 in the source; per the
spec §4.2 encoding cannot fail for well-formed claims, so the modelled codec
is total and those arms are unreachable here.) -/
def LoginResponse.with_user (u : User) : Response :=
  { status := 201, errno := none, message := none,
    sessionToken := some (SessionToken.from_user u) }

/-- A store operation performed by a handler, in order. -/
inductive StoreOp
  | readAdmins
  | readCreds (username password : String)
  | createUser (u : User)
deriving DecidableEq, Repr

/-- The result of running a handler: either it panics (an `unwrap()` on an
`Err` in the Rust source), or it produces a response together with the list
of store operations it performed. -/
inductive HandlerResult
  | panics
  | ok (resp : Response) (ops : List StoreOp)
deriving DecidableEq, Repr

/-- The decoded `SetupBody` JSON: each field may be absent from the JSON
object (an absent field is a decode error in the source, mapped to the same
field-specific errno by `from_decoder_error` in `errors.rs`). -/
structure SetupBody where
  username : Option String
  email : Option String
  password : Option String
deriving DecidableEq, Repr

/-- Modelled from the spec (§4.5 step 2; `UserBuilder` validation in
`users_db.rs` and `from_decoder_error` / `from_user_builder_error` in
`errors.rs`, not under src/): username must be present and non-empty. -/
def validUsername : Option String → Bool
  | none => false
  | some s => !s.isEmpty

/-- Modelled from the spec (§4.5 step 2): the email must be present and
syntactically plausible (it contains an `@`; the tests accept `u@d`). -/
def validEmail : Option String → Bool
  | none => false
  | some s => s.data.contains '@'

/-- Modelled from the spec (§4.5 step 2): the password must be present and at
least 8 characters long. -/
def validPassword : Option String → Bool
  | none => false
  | some s => 8 ≤ s.length

/-- Modelled from the spec (§4.5 step 2, §6 errnos; messages from the
router's own tests): validate the body fields in order username, email,
password, stopping at the first failure with its field-specific errno. -/
def validateSetup (b : SetupBody) : Except Response (String × String × String) :=
  if !validUsername b.username then
    Except.error (EndpointError.with 400 100 (some "Invalid user name"))
  else if !validEmail b.email then
    Except.error (EndpointError.with 400 101 (some "Invalid email"))
  else if !validPassword b.password then
    Except.error (EndpointError.with 400 102
      (some "Invalid password. Passwords must have a minimum of 8 chars"))
  else
    Except.ok (b.username.getD "", b.email.getD "", b.password.getD "")

/-- The environment a single `setup` call observes: the store's answer to the
admin query, the outcome of reading+decoding the request body, whether the
store's `create` succeeds, and the id the store assigns to the created row. -/
structure SetupEnv where
  adminQuery : Except Unit (List User)
  bodyRead : Except Unit SetupBody
  createOk : Bool
  assignedId : Nat
deriving Repr

/-- `UsersRouter::setup` from `users_router.rs`.  Faithful to the source:
the admin query result is `unwrap()`ed (an `Err` panics), a non-empty admin
set answers `410 Gone` before the body is touched, the body read is
`unwrap()`ed, validation errors answer 400 with a field errno, and the
created admin (flagged `admin(true)`) is turned into a `201` login
response; a `create` failure maps through `from_sqlite_error` (not under
src/; per the spec §7 a generic 500 with no detail). -/
def UsersRouter.setup (env : SetupEnv) : HandlerResult :=
  match env.adminQuery with
  | Except.error _ => HandlerResult.panics
  | Except.ok admins =>
    if !admins.isEmpty then
      HandlerResult.ok
        (EndpointError.with 410 410 (some "There is already an admin account"))
        [StoreOp.readAdmins]
    else
      match env.bodyRead with
      | Except.error _ => HandlerResult.panics
      | Except.ok body =>
        match validateSetup body with
        | Except.error resp => HandlerResult.ok resp [StoreOp.readAdmins]
        | Except.ok (username, email, password) =>
          let admin : User :=
            { id := env.assignedId, name := username, email := email,
              password := password, isAdmin := true }
          if env.createOk then
            HandlerResult.ok (LoginResponse.with_user admin)
              [StoreOp.readAdmins, StoreOp.createUser admin]
          else
            HandlerResult.ok
              { status := 500, errno := none, message := none,
                sessionToken := none }
              [StoreOp.readAdmins, StoreOp.createUser admin]

/-- The `Authorization: Basic` header as iron parses it: a username and an
optional password. -/
structure BasicAuth where
  username : String
  password : Option String
deriving DecidableEq, Repr

/-- `credentials_from_header` from `UsersRouter::login`: `Some` pair iff both
a non-empty username and a non-empty password are present. -/
def credentials_from_header (auth : BasicAuth) : Option (String × String) :=
  let something_is_missed :=
    auth.username.isEmpty ||
      (match auth.password with
       | none => true
       | some psw => psw.isEmpty)
  if something_is_missed then none
  else some (auth.username, auth.password.getD "")

/-- The environment a single `login` call observes: the optional Basic
authorization header and the store's answer to the credentials query that
would be issued. -/
structure LoginEnv where
  header : Option BasicAuth
  credQuery : Except Unit (List User)
deriving Repr

/-- `UsersRouter::login` from `users_router.rs`: no or malformed Basic
credentials answer `400`/errno 103 without touching the store; a store error
answers 500/errno 501; a result set of size other than one answers
`401 Unauthorized`; exactly one match answers via `LoginResponse::with_user`. -/
def UsersRouter.login (env : LoginEnv) : HandlerResult :=
  let error103 := EndpointError.with 400 103
    (some "Missing or malformed authentication header")
  match env.header with
  | none => HandlerResult.ok error103 []
  | some auth =>
    match credentials_from_header auth with
    | none => HandlerResult.ok error103 []
    | some (username, password) =>
      match env.credQuery with
      | Except.error _ =>
        HandlerResult.ok (EndpointError.with 500 501 none)
          [StoreOp.readCreds username password]
      | Except.ok users =>
        if h : users.length = 1 then
          HandlerResult.ok
            (LoginResponse.with_user (users.get ⟨0, by omega⟩))
            [StoreOp.readCreds username password]
        else
          HandlerResult.ok (EndpointError.with 401 401 none)
            [StoreOp.readCreds username password]

/-- A request as the CRUD stubs see it (they ignore it entirely). -/
structure Request where
  method : Method
  path : ReqPath
  header : Option BasicAuth
  body : String
deriving Repr

/-- `UsersRouter::create_user`: an unimplemented stub answering
`404`/errno 404 with no store access. -/
def UsersRouter.create_user (_req : Request) (_dbPath : String) : HandlerResult :=
  HandlerResult.ok (EndpointError.with 404 404 none) []

/-- `UsersRouter::get_user`: an unimplemented stub answering `404`. -/
def UsersRouter.get_user (_req : Request) (_dbPath : String) : HandlerResult :=
  HandlerResult.ok (EndpointError.with 404 404 none) []

/-- `UsersRouter::get_all_users`: an unimplemented stub answering `404`. -/
def UsersRouter.get_all_users (_req : Request) (_dbPath : String) : HandlerResult :=
  HandlerResult.ok (EndpointError.with 404 404 none) []

/-- `UsersRouter::edit_user`: an unimplemented stub answering `404`. -/
def UsersRouter.edit_user (_req : Request) (_dbPath : String) : HandlerResult :=
  HandlerResult.ok (EndpointError.with 404 404 none) []

/-- `UsersRouter::delete_user`: an unimplemented stub answering `404`. -/
def UsersRouter.delete_user (_req : Request) (_dbPath : String) : HandlerResult :=
  HandlerResult.ok (EndpointError.with 404 404 none) []

/-- The route table registered by `UsersRouter::init`, in registration order:
each route's method and pattern, every pattern prefixed by `API_VERSION`. -/
def usersRoutes : List (Method × List Seg) :=
  [ (Method.post,   [Seg.lit API_VERSION, Seg.lit "setup"]),
    (Method.post,   [Seg.lit API_VERSION, Seg.lit "login"]),
    (Method.post,   [Seg.lit API_VERSION, Seg.lit "users"]),
    (Method.get,    [Seg.lit API_VERSION, Seg.lit "users", Seg.wc "id"]),
    (Method.get,    [Seg.lit API_VERSION, Seg.lit "users"]),
    (Method.put,    [Seg.lit API_VERSION, Seg.lit "users", Seg.wc "id"]),
    (Method.delete, [Seg.lit API_VERSION, Seg.lit "users", Seg.wc "id"]) ]

/-- The CORS endpoint list built in `UsersRouter::init`. -/
def usersCorsEndpoints : List Endpoint :=
  [ { methods := [Method.post],
      pattern := [Seg.lit API_VERSION, Seg.lit "login"] },
    { methods := [Method.post, Method.get],
      pattern := [Seg.lit API_VERSION, Seg.lit "users"] },
    { methods := [Method.get, Method.put, Method.delete],
      pattern := [Seg.lit API_VERSION, Seg.lit "users", Seg.wc "id"] } ]

/-- The auth-gate endpoint list built in `UsersRouter::init`. -/
def usersAuthEndpoints : List Endpoint :=
  [ { methods := [Method.post, Method.get],
      pattern := [Seg.lit API_VERSION, Seg.lit "users"] },
    { methods := [Method.put, Method.delete],
      pattern := [Seg.lit API_VERSION, Seg.lit "users", Seg.wc "id"] } ]

/-- The state of the bearer session token carried by a request, as the auth
middleware classifies it. -/
inductive TokenState
  | missing
  | malformed
  | invalidSignature
  | expired
  | valid (claims : SessionClaims)
deriving DecidableEq, Repr

/-- Whether a token state is a verified, valid session token. -/
def TokenState.isValid : TokenState → Bool
  | TokenState.valid _ => true
  | _ => false

/-- The observable outcome of the auth gate: whether the downstream handler
ran, and the resulting response. -/
structure GateOutcome where
  handlerInvoked : Bool
  response : Response
deriving DecidableEq, Repr

/-- Modelled from the spec (§4.3 AuthGate and §8; `AuthMiddleware` in
`auth_middleware.rs`, not under src/): a request whose (method, path) matches
no configured endpoint is admitted unconditionally; a matching request is
admitted only with a valid bearer session token and otherwise rejected with
`401` without invoking the downstream handler. -/
def authGate (eps : List Endpoint) (m : Method) (p : ReqPath) (tok : TokenState)
    (handlerResponse : Response) : GateOutcome :=
  if authMatch eps m p then
    match tok with
    | TokenState.valid _ => { handlerInvoked := true, response := handlerResponse }
    | _ =>
      { handlerInvoked := false,
        response := EndpointError.with 401 401 none }
  else
    { handlerInvoked := true, response := handlerResponse }

/-- A response as it leaves the middleware chain: the handler (or gate)
response plus the presence of each of the three CORS headers. -/
structure OutResponse where
  response : Response
  allowOrigin : Bool
  allowHeaders : Bool
  allowMethods : Bool
deriving DecidableEq, Repr

/-- Modelled from the spec (§4.4 CorsPolicy; the CORS after-middleware is not
under src/): runs after the handler on success and error alike, and sets all
three CORS headers iff the request matches the configured endpoint list. -/
def corsDecorate (eps : List Endpoint) (m : Method) (p : ReqPath) (r : Response) :
    OutResponse :=
  if corsMatch eps m p then
    { response := r, allowOrigin := true, allowHeaders := true,
      allowMethods := true }
  else
    { response := r, allowOrigin := false, allowHeaders := false,
      allowMethods := false }

/-- Whether a route table dispatches a (method, path) request to some route. -/
def routeMatch (routes : List (Method × List Seg)) (m : Method) (p : ReqPath) :
    Bool :=
  routes.any fun r => r.1 == m && segsMatch r.2 p

/-- A sample admin user for concrete instantiations. -/
def sampleAdmin : User :=
  { id := 1, name := "admin", email := "admin@example.com",
    password := "password!!", isAdmin := true }

/-- A sample regular user for concrete instantiations. -/
def sampleUser : User :=
  { id := 1, name := "username", email := "username@example.com",
    password := "password", isAdmin := false }

/-- C1 counterexample: a GET request to `/v1/users/42` with no session token
is admitted by the auth gate (its method/path matches no entry of the
configured auth endpoint list), so the downstream handler runs and the
response is the handler's 404, not a 401 rejection — refuting the claim that
every method listed for `/users/:id` is auth-gated. -/
theorem authGate_get_user_ungated :
    (authGate usersAuthEndpoints Method.get ["v1", "users", "42"]
        TokenState.missing (EndpointError.with 404 404 none)).handlerInvoked
      = true ∧
    (authGate usersAuthEndpoints Method.get ["v1", "users", "42"]
        TokenState.missing (EndpointError.with 404 404 none)).response.status
      = 404 := by
  constructor <;> rfl

/-- C1 (amended): for requests with method POST or GET to `/v1/users`, or PUT
or DELETE to `/v1/users/:id` — the endpoints actually configured in the auth
gate list of `UsersRouter::init` — a request without a valid bearer session
token is rejected with 401 and the downstream handler is never invoked.
(GET `/v1/users/:id` is registered as a route but absent from the auth list.) -/
theorem authGate_configured_endpoints_gated (tok : TokenState)
    (htok : tok.isValid = false) (m : Method) (p : ReqPath) (r : Response)
    (hmp : ((m = Method.post ∨ m = Method.get) ∧ p = ["v1", "users"]) ∨
           ((m = Method.put ∨ m = Method.delete) ∧
             ∃ x, p = ["v1", "users", x])) :
    (authGate usersAuthEndpoints m p tok r).handlerInvoked = false ∧
    (authGate usersAuthEndpoints m p tok r).response =
      EndpointError.with 401 401 none := by
  have hmatch : authMatch usersAuthEndpoints m p = true := by
    rcases hmp with ⟨hm, hp⟩ | ⟨hm, x, hp⟩ <;> subst hp <;>
      rcases hm with hm | hm <;> subst hm <;>
      simp [authMatch, usersAuthEndpoints, segsMatch, segMatches, API_VERSION]
  cases tok <;> simp_all [authGate, TokenState.isValid]

/-- C1 witness: a PUT to `/v1/users/7` with a missing token is rejected with
401 and the handler does not run. -/
theorem authGate_configured_endpoints_gated_witness :
    (authGate usersAuthEndpoints Method.put ["v1", "users", "7"]
        TokenState.missing (EndpointError.with 404 404 none)).handlerInvoked
      = false ∧
    (authGate usersAuthEndpoints Method.put ["v1", "users", "7"]
        TokenState.missing (EndpointError.with 404 404 none)).response =
      EndpointError.with 401 401 none :=
  authGate_configured_endpoints_gated TokenState.missing rfl Method.put
    ["v1", "users", "7"] (EndpointError.with 404 404 none)
    (Or.inr ⟨Or.inl rfl, "7", rfl⟩)

/-- C2: whenever the store's admin query returns a non-empty set, `setup`
answers 410 Gone with the fixed message, the only store operation performed
is the admin query itself (no create), and — since the result is the same for
every body and every create outcome — the check precedes body parsing and
validation. -/
theorem setup_admin_exists (env : SetupEnv) (admins : List User)
    (hq : env.adminQuery = Except.ok admins) (hne : admins ≠ []) :
    UsersRouter.setup env =
      HandlerResult.ok
        (EndpointError.with 410 410 (some "There is already an admin account"))
        [StoreOp.readAdmins] := by
  unfold UsersRouter.setup
  rw [hq]
  simp [hne]

/-- C2 witness: with one admin present and a body that would even fail to
read, setup answers 410 and performs no further store operation. -/
theorem setup_admin_exists_witness :
    UsersRouter.setup
      { adminQuery := Except.ok [sampleAdmin], bodyRead := Except.error (),
        createOk := false, assignedId := 0 } =
      HandlerResult.ok
        (EndpointError.with 410 410 (some "There is already an admin account"))
        [StoreOp.readAdmins] :=
  setup_admin_exists
    { adminQuery := Except.ok [sampleAdmin], bodyRead := Except.error (),
      createOk := false, assignedId := 0 }
    [sampleAdmin] rfl (List.cons_ne_nil _ _)

/-- C3: for a login request with well-formed Basic credentials, if the
store's credential query returns a result set of size other than one the
response is 401 Unauthorized (never a server error), and if it returns
exactly one user the response is 201 Created with a `{session_token}` body
whose claims carry that user's numeric id and name. -/
theorem login_credential_query (env : LoginEnv) (auth : BasicAuth)
    (u p : String) (users : List User)
    (hh : env.header = some auth)
    (hc : credentials_from_header auth = some (u, p))
    (hq : env.credQuery = Except.ok users) :
    (users.length ≠ 1 →
      UsersRouter.login env =
        HandlerResult.ok (EndpointError.with 401 401 none)
          [StoreOp.readCreds u p]) ∧
    (∀ usr, users = [usr] →
      UsersRouter.login env =
        HandlerResult.ok
          { status := 201, errno := none, message := none,
            sessionToken := some { claims := { id := usr.id, name := usr.name } } }
          [StoreOp.readCreds u p]) := by
  simp only [UsersRouter.login, hh, hc, hq]
  constructor
  · intro hlen
    simp [hlen]
  · intro usr husr
    subst husr
    simp [LoginResponse.with_user, SessionToken.from_user]

/-- C3 witness: exactly one matching user yields 201 with a token carrying
the user's id 1 and name; an empty result set yields 401. -/
theorem login_credential_query_witness :
    (UsersRouter.login
        { header := some { username := "username", password := some "password" },
          credQuery := Except.ok [sampleUser] } =
      HandlerResult.ok
        { status := 201, errno := none, message := none,
          sessionToken := some { claims := { id := 1, name := "username" } } }
        [StoreOp.readCreds "username" "password"]) ∧
    (UsersRouter.login
        { header := some { username := "johndoe", password := some "password" },
          credQuery := Except.ok [] } =
      HandlerResult.ok (EndpointError.with 401 401 none)
        [StoreOp.readCreds "johndoe" "password"]) :=
  ⟨(login_credential_query
      { header := some { username := "username", password := some "password" },
        credQuery := Except.ok [sampleUser] }
      { username := "username", password := some "password" }
      "username" "password" [sampleUser] rfl rfl rfl).2 sampleUser rfl,
   (login_credential_query
      { header := some { username := "johndoe", password := some "password" },
        credQuery := Except.ok [] }
      { username := "johndoe", password := some "password" }
      "johndoe" "password" [] rfl rfl rfl).1 (by decide)⟩

/-- C4: when no admin exists and the body decodes, the fields are validated
in the fixed order username, email, password, stopping at the first failure
with 400 and the field-specific errno: an invalid username yields errno 100
whatever the other fields hold; a valid username with an invalid email yields
errno 101 whatever the password holds; valid username and email with a
password failing the 8-character minimum yield errno 102.  Errors are never
aggregated: each failing response carries a single errno. -/
theorem setup_validation_order (env : SetupEnv) (b : SetupBody)
    (hq : env.adminQuery = Except.ok []) (hb : env.bodyRead = Except.ok b) :
    (validUsername b.username = false →
      UsersRouter.setup env =
        HandlerResult.ok
          (EndpointError.with 400 100 (some "Invalid user name"))
          [StoreOp.readAdmins]) ∧
    (validUsername b.username = true → validEmail b.email = false →
      UsersRouter.setup env =
        HandlerResult.ok
          (EndpointError.with 400 101 (some "Invalid email"))
          [StoreOp.readAdmins]) ∧
    (validUsername b.username = true → validEmail b.email = true →
      validPassword b.password = false →
      UsersRouter.setup env =
        HandlerResult.ok
          (EndpointError.with 400 102
            (some "Invalid password. Passwords must have a minimum of 8 chars"))
          [StoreOp.readAdmins]) := by
  refine ⟨fun h1 => ?_, fun h1 h2 => ?_, fun h1 h2 h3 => ?_⟩
  · simp [UsersRouter.setup, hq, hb, validateSetup, h1]
  · simp [UsersRouter.setup, hq, hb, validateSetup, h1, h2]
  · simp [UsersRouter.setup, hq, hb, validateSetup, h1, h2, h3]

/-- C4 witness: a body missing the username yields errno 100, a body missing
the email yields errno 101, and a body whose password is shorter than 8
characters yields errno 102. -/
theorem setup_validation_order_witness :
    (UsersRouter.setup
        { adminQuery := Except.ok [],
          bodyRead := Except.ok
            { username := none, email := some "u@d",
              password := some "12345678" },
          createOk := true, assignedId := 1 } =
      HandlerResult.ok
        (EndpointError.with 400 100 (some "Invalid user name"))
        [StoreOp.readAdmins]) ∧
    (UsersRouter.setup
        { adminQuery := Except.ok [],
          bodyRead := Except.ok
            { username := some "u", email := none,
              password := some "12345678" },
          createOk := true, assignedId := 1 } =
      HandlerResult.ok
        (EndpointError.with 400 101 (some "Invalid email"))
        [StoreOp.readAdmins]) ∧
    (UsersRouter.setup
        { adminQuery := Except.ok [],
          bodyRead := Except.ok
            { username := some "u", email := some "u@d",
              password := some "1234567" },
          createOk := true, assignedId := 1 } =
      HandlerResult.ok
        (EndpointError.with 400 102
          (some "Invalid password. Passwords must have a minimum of 8 chars"))
        [StoreOp.readAdmins]) :=
  ⟨(setup_validation_order
      { adminQuery := Except.ok [],
        bodyRead := Except.ok
          { username := none, email := some "u@d", password := some "12345678" },
        createOk := true, assignedId := 1 }
      { username := none, email := some "u@d", password := some "12345678" }
      rfl rfl).1 rfl,
   (setup_validation_order
      { adminQuery := Except.ok [],
        bodyRead := Except.ok
          { username := some "u", email := none, password := some "12345678" },
        createOk := true, assignedId := 1 }
      { username := some "u", email := none, password := some "12345678" }
      rfl rfl).2.1 (by decide) rfl,
   (setup_validation_order
      { adminQuery := Except.ok [],
        bodyRead := Except.ok
          { username := some "u", email := some "u@d", password := some "1234567" },
        createOk := true, assignedId := 1 }
      { username := some "u", email := some "u@d", password := some "1234567" }
      rfl rfl).2.2 (by decide) (by decide) (by decide)⟩

/-- C5: a setup request with a valid body (present non-empty username,
plausible email, password of length at least 8) when no admin exists and the
store create succeeds persists a new user record flagged as admin carrying
the submitted fields, and answers 201 Created with a `{session_token}` body
whose token claims encode the submitted username. -/
theorem setup_success (env : SetupEnv) (b : SetupBody) (u e pw : String)
    (hq : env.adminQuery = Except.ok [])
    (hb : env.bodyRead = Except.ok b)
    (hu : b.username = some u) (he : b.email = some e)
    (hp : b.password = some pw)
    (hvu : validUsername b.username = true)
    (hve : validEmail b.email = true)
    (hvp : validPassword b.password = true)
    (hc : env.createOk = true) :
    UsersRouter.setup env =
      HandlerResult.ok
        { status := 201, errno := none, message := none,
          sessionToken := some { claims := { id := env.assignedId, name := u } } }
        [StoreOp.readAdmins,
         StoreOp.createUser
           { id := env.assignedId, name := u, email := e, password := pw,
             isAdmin := true }] := by
  rw [hu] at hvu
  rw [he] at hve
  rw [hp] at hvp
  simp [UsersRouter.setup, hq, hb, validateSetup, hvu, hve, hvp, hu, he, hp,
    hc, LoginResponse.with_user, SessionToken.from_user]

/-- C5 witness: the test body `{username, username@domain.com, password}`
with no admin present creates an admin record and answers 201 with a token
whose claims carry the submitted username. -/
theorem setup_success_witness :
    UsersRouter.setup
      { adminQuery := Except.ok [],
        bodyRead := Except.ok
          { username := some "username", email := some "username@domain.com",
            password := some "password" },
        createOk := true, assignedId := 1 } =
      HandlerResult.ok
        { status := 201, errno := none, message := none,
          sessionToken := some { claims := { id := 1, name := "username" } } }
        [StoreOp.readAdmins,
         StoreOp.createUser
           { id := 1, name := "username", email := "username@domain.com",
             password := "password", isAdmin := true }] :=
  setup_success
    { adminQuery := Except.ok [],
      bodyRead := Except.ok
        { username := some "username", email := some "username@domain.com",
          password := some "password" },
      createOk := true, assignedId := 1 }
    { username := some "username", email := some "username@domain.com",
      password := some "password" }
    "username" "username@domain.com" "password"
    rfl rfl rfl rfl rfl (by decide) (by decide) (by decide) rfl

/-- C6: a login request whose Authorization header is missing, or whose Basic
credentials have an empty username, or a missing or empty password, answers
400 Bad Request with errno 103 and the message "Missing or malformed
authentication header", and performs no store operation at all. -/
theorem login_malformed_auth (env : LoginEnv)
    (h : env.header = none ∨
         ∃ a, env.header = some a ∧
           (a.username = "" ∨ a.password = none ∨ a.password = some "")) :
    UsersRouter.login env =
      HandlerResult.ok
        (EndpointError.with 400 103
          (some "Missing or malformed authentication header")) [] := by
  rcases h with h | ⟨a, ha, hbad⟩
  · simp [UsersRouter.login, h]
  · have hcred : credentials_from_header a = none := by
      obtain ⟨un, pw⟩ := a
      rcases hbad with hbad | hbad | hbad <;>
        simp_all [credentials_from_header, String.isEmpty]
    simp [UsersRouter.login, ha, hcred]

/-- C6 witness: a missing header, an empty username, and an empty password
each answer 400/errno 103 with an empty store-operation list. -/
theorem login_malformed_auth_witness :
    (UsersRouter.login { header := none, credQuery := Except.ok [] } =
      HandlerResult.ok
        (EndpointError.with 400 103
          (some "Missing or malformed authentication header")) []) ∧
    (UsersRouter.login
        { header := some { username := "", password := some "password" },
          credQuery := Except.ok [] } =
      HandlerResult.ok
        (EndpointError.with 400 103
          (some "Missing or malformed authentication header")) []) ∧
    (UsersRouter.login
        { header := some { username := "username", password := some "" },
          credQuery := Except.ok [] } =
      HandlerResult.ok
        (EndpointError.with 400 103
          (some "Missing or malformed authentication header")) []) :=
  ⟨login_malformed_auth { header := none, credQuery := Except.ok [] }
      (Or.inl rfl),
   login_malformed_auth
      { header := some { username := "", password := some "password" },
        credQuery := Except.ok [] }
      (Or.inr ⟨{ username := "", password := some "password" }, rfl,
        Or.inl rfl⟩),
   login_malformed_auth
      { header := some { username := "username", password := some "" },
        credQuery := Except.ok [] }
      (Or.inr ⟨{ username := "username", password := some "" }, rfl,
        Or.inr (Or.inr rfl)⟩)⟩

/-- C7: the CORS decorator leaves the handler response untouched and sets all
three CORS headers exactly when the request matches the configured list — on
success and error responses alike, since the response is never inspected.
The configured list matches POST `/v1/login`, POST/GET `/v1/users` and
GET/PUT/DELETE `/v1/users/:id` (any id), and does not match POST
`/v1/setup`, so setup responses carry none of the three headers. -/
theorem cors_policy (m : Method) (p : ReqPath) (r : Response) (x : String) :
    ((corsDecorate usersCorsEndpoints m p r).response = r) ∧
    (corsMatch usersCorsEndpoints m p = true →
      (corsDecorate usersCorsEndpoints m p r).allowOrigin = true ∧
      (corsDecorate usersCorsEndpoints m p r).allowHeaders = true ∧
      (corsDecorate usersCorsEndpoints m p r).allowMethods = true) ∧
    (corsMatch usersCorsEndpoints m p = false →
      (corsDecorate usersCorsEndpoints m p r).allowOrigin = false ∧
      (corsDecorate usersCorsEndpoints m p r).allowHeaders = false ∧
      (corsDecorate usersCorsEndpoints m p r).allowMethods = false) ∧
    corsMatch usersCorsEndpoints Method.post ["v1", "login"] = true ∧
    corsMatch usersCorsEndpoints Method.post ["v1", "users"] = true ∧
    corsMatch usersCorsEndpoints Method.get ["v1", "users"] = true ∧
    corsMatch usersCorsEndpoints Method.get ["v1", "users", x] = true ∧
    corsMatch usersCorsEndpoints Method.put ["v1", "users", x] = true ∧
    corsMatch usersCorsEndpoints Method.delete ["v1", "users", x] = true ∧
    corsMatch usersCorsEndpoints Method.post ["v1", "setup"] = false := by
  refine ⟨?_, fun hm => ?_, fun hm => ?_, ?_, ?_, ?_, ?_, ?_, ?_, ?_⟩
  · cases hc : corsMatch usersCorsEndpoints m p <;> simp [corsDecorate, hc]
  · simp [corsDecorate, hm]
  · simp [corsDecorate, hm]
  · decide
  · decide
  · decide
  · simp [corsMatch, usersCorsEndpoints, segsMatch, segMatches, API_VERSION]
  · simp [corsMatch, usersCorsEndpoints, segsMatch, segMatches, API_VERSION]
  · simp [corsMatch, usersCorsEndpoints, segsMatch, segMatches, API_VERSION]
  · decide

/-- C7 witness: an error response to POST `/v1/login` (a CORS endpoint)
carries all three headers, instantiating the matching direction at a
concrete request. -/
theorem cors_policy_witness :
    (corsDecorate usersCorsEndpoints Method.post ["v1", "login"]
        (EndpointError.with 401 401 none)).allowOrigin = true ∧
    (corsDecorate usersCorsEndpoints Method.post ["v1", "login"]
        (EndpointError.with 401 401 none)).allowHeaders = true ∧
    (corsDecorate usersCorsEndpoints Method.post ["v1", "login"]
        (EndpointError.with 401 401 none)).allowMethods = true :=
  (cors_policy Method.post ["v1", "login"]
    (EndpointError.with 401 401 none) "").2.1 (by decide)

/-- C8 (code bug): when the store's admin query fails, `setup` panics — the
source `unwrap()`s `db.read(ReadFilter::IsAdmin(true))` — instead of
answering a generic 500, contradicting the spec's propagation policy for
store errors (which the login handler follows). -/
theorem setup_store_error_panics :
    UsersRouter.setup
      { adminQuery := Except.error (),
        bodyRead := Except.ok
          { username := some "u", email := some "u@d",
            password := some "12345678" },
        createOk := true, assignedId := 1 } = HandlerResult.panics := rfl

/-- C9: every user-management CRUD handler is an unimplemented stub: for any
request and any store path it answers 404 Not Found with errno 404 and
performs no store operation. -/
theorem crud_handlers_are_stubs (req : Request) (dbPath : String) :
    UsersRouter.create_user req dbPath =
      HandlerResult.ok (EndpointError.with 404 404 none) [] ∧
    UsersRouter.get_user req dbPath =
      HandlerResult.ok (EndpointError.with 404 404 none) [] ∧
    UsersRouter.get_all_users req dbPath =
      HandlerResult.ok (EndpointError.with 404 404 none) [] ∧
    UsersRouter.edit_user req dbPath =
      HandlerResult.ok (EndpointError.with 404 404 none) [] ∧
    UsersRouter.delete_user req dbPath =
      HandlerResult.ok (EndpointError.with 404 404 none) [] :=
  ⟨rfl, rfl, rfl, rfl, rfl⟩

/-- C10: every registered route pattern and every pattern in the CORS and
auth-gate lists starts with the literal `API_VERSION` segment `v1`, the
versioned public paths all dispatch, and the unversioned paths of the
interface table (`/setup`, `/login`, `/users`, `/users/:id`) match no route,
no auth-gate entry and no CORS entry for any method. -/
theorem api_version_prefix (m : Method) (x : String) :
    API_VERSION = "v1" ∧
    (usersRoutes.all fun r => r.2.head? == some (Seg.lit "v1")) = true ∧
    (usersCorsEndpoints.all
      fun ep => ep.pattern.head? == some (Seg.lit "v1")) = true ∧
    (usersAuthEndpoints.all
      fun ep => ep.pattern.head? == some (Seg.lit "v1")) = true ∧
    routeMatch usersRoutes Method.post ["v1", "setup"] = true ∧
    routeMatch usersRoutes Method.post ["v1", "login"] = true ∧
    routeMatch usersRoutes Method.post ["v1", "users"] = true ∧
    routeMatch usersRoutes Method.get ["v1", "users"] = true ∧
    routeMatch usersRoutes Method.get ["v1", "users", x] = true ∧
    routeMatch usersRoutes Method.put ["v1", "users", x] = true ∧
    routeMatch usersRoutes Method.delete ["v1", "users", x] = true ∧
    routeMatch usersRoutes m ["setup"] = false ∧
    routeMatch usersRoutes m ["login"] = false ∧
    routeMatch usersRoutes m ["users"] = false ∧
    routeMatch usersRoutes m ["users", x] = false ∧
    authMatch usersAuthEndpoints m ["users"] = false ∧
    authMatch usersAuthEndpoints m ["users", x] = false ∧
    corsMatch usersCorsEndpoints m ["login"] = false ∧
    corsMatch usersCorsEndpoints m ["users"] = false ∧
    corsMatch usersCorsEndpoints m ["users", x] = false := by
  refine ⟨rfl, by decide, by decide, by decide, by decide, by decide,
    by decide, by decide, ?_, ?_, ?_, ?_, ?_, ?_, ?_, ?_, ?_, ?_, ?_, ?_⟩ <;>
    cases m <;>
    simp [routeMatch, usersRoutes, authMatch, usersAuthEndpoints, corsMatch,
      usersCorsEndpoints, segsMatch, segMatches, API_VERSION]
